import Mathlib

/-!
Shallow embedding of `src/data_quality_validator.py` (Python Data Quality
Framework).  Tables model pandas DataFrames with a default positional
RangeIndex; cell values model the scalar values that occur in the claims
(Python ints, strings, bools, and null/NaN/None).  Errors raised by the
Python code (and by the pandas operations it calls) are modelled with an
explicit `Except` error type.
-/

namespace DQ

/-- A scalar cell value of a table column: a Python int, a string, a bool,
or a missing value (None / NaN). -/
inductive Value where
  | int (n : Int)
  | str (s : String)
  | bool (b : Bool)
  | null
deriving DecidableEq, Repr

abbrev Row := List Value

/-- A pandas DataFrame with a default positional index: a list of column
names and a list of rows (each row holding one value per column). -/
structure Table where
  header : List String
  rows : List Row
deriving DecidableEq, Repr

/-- Errors raised by the Python code or by the pandas operations it calls:
`valueError` is the `ValueError` raised in `DataQualityRule.evaluate`;
`keyError` is the pandas `KeyError` from `df[column]` on a missing column;
`typeError` is the Python `TypeError` from comparing a string with a number;
`indexingError` is the pandas `IndexingError` from `df.loc[mask]` when the
boolean indexer cannot be aligned with the frame's index (wrong length). -/
inductive QError where
  | valueError (msg : String)
  | keyError (col : String)
  | typeError (msg : String)
  | indexingError
deriving DecidableEq, Repr

/-- Embeds `df[column]`: the values of the named column, or a pandas `KeyError`
when the column is absent. -/
def Table.col (t : Table) (c : String) : Except QError (List Value) :=
  match t.header.indexOf? c with
  | none => .error (.keyError c)
  | some i => .ok (t.rows.map (fun r => r.getD i .null))

/-- An element of the raw object a rule's predicate returns: a boolean, or
any non-boolean value.  A pandas Series has `dtype == bool` exactly when
all its elements are Python booleans. -/
inductive MVal where
  | b (x : Bool)
  | nonbool
deriving DecidableEq, Repr

def MVal.isBool : MVal → Bool
  | .b _ => true
  | .nonbool => false

def MVal.toBool : MVal → Bool
  | .b x => x
  | .nonbool => false

/-- Embeds the `RuleResult` dataclass: name, passed, failures, total, details
(the sub-frame of failing rows). -/
structure RuleResult where
  name : String
  passed : Bool
  failures : Nat
  total : Nat
  details : Option Table
deriving DecidableEq, Repr

/-- Embeds `DataQualityRule`: a named predicate from a table to a (purported)
boolean Series, one entry per row.  The predicate may itself raise
(e.g. a `KeyError` on a missing column). -/
structure DataQualityRule where
  name : String
  func : Table → Except QError (List MVal)
  description : String := ""

/-- Embeds `df.loc[indexer]` for a boolean Series `indexer` over a frame with a
default RangeIndex: pandas aligns the indexer with the frame's index by
label.  When the indexer is at least as long as the frame, every frame
label 0..n-1 is present in the indexer's RangeIndex, so alignment keeps
the indexer's first n entries and the selection succeeds (any extra
entries are silently dropped); when the indexer is shorter, some frame
labels are missing from it and pandas raises an `IndexingError`
(unalignable boolean Series).  `List.zip` truncates to the shorter list,
which is exactly the label alignment for a long-enough indexer. -/
def locBool (rows : List Row) (indexer : List Bool) : Except QError (List Row) :=
  if rows.length ≤ indexer.length then
    .ok (((rows.zip indexer).filter (fun p => p.2)).map Prod.fst)
  else
    .error .indexingError

/-- Embeds `DataQualityRule.evaluate`: run the predicate; raise `ValueError` if the
result is not a boolean Series; otherwise count the `False` entries as
failures and select the failing rows with `df.loc[~mask]`. -/
def DataQualityRule.evaluate (r : DataQualityRule) (t : Table) :
    Except QError RuleResult :=
  match r.func t with
  | .error e => .error e
  | .ok raw =>
    if raw.all MVal.isBool then
      let mask := raw.map MVal.toBool
      let total := t.rows.length
      let failuresMask := mask.map (fun b => !b)
      let failures := failuresMask.count true
      match locBool t.rows failuresMask with
      | .error e => .error e
      | .ok detailRows =>
        .ok { name := r.name, passed := failures == 0, failures := failures,
              total := total,
              details := some { header := t.header, rows := detailRows } }
    else
      .error (.valueError "Rule function must return a boolean pandas Series")

/-- Embeds `DataQualityValidator.validate`: evaluate each registered rule in
registration order, collecting results; a rule that raises aborts the
call and the exception propagates unwrapped. -/
def validate : List DataQualityRule → Table → Except QError (List RuleResult)
  | [], _ => .ok []
  | r :: rs, t =>
    match r.evaluate t with
    | .error e => .error e
    | .ok res =>
      match validate rs t with
      | .error e => .error e
      | .ok rest => .ok (res :: rest)

/-- Embeds `RuleResult.to_dict`: the summary record of one result, an ordered
dict with keys name, passed, failures, total (no row-level detail). -/
def RuleResult.to_dict (r : RuleResult) : List (String × Value) :=
  [("name", .str r.name), ("passed", .bool r.passed),
   ("failures", .int (r.failures : Int)), ("total", .int (r.total : Int))]

/-- Column order of `pd.DataFrame(records)`: union of the records' keys in
order of first appearance. -/
def dictKeysUnion (ds : List (List (String × Value))) : List String :=
  ds.foldl (fun acc d => acc ++ ((d.map Prod.fst).filter (fun k => !(acc.contains k)))) []

/-- Embeds `DataQualityValidator.summary`: `pd.DataFrame([r.to_dict() for r in results])`.
The frame's columns are the union of the dict keys in first-appearance
order (in particular, zero columns for an empty list), and row `i` holds
record `i`'s value for each column (null when the key is absent). -/
def summary (results : List RuleResult) : Table :=
  let ds := results.map RuleResult.to_dict
  let cols := dictKeysUnion ds
  { header := cols,
    rows := ds.map (fun d => cols.map (fun k => (d.lookup k).getD .null)) }

/-- Embeds the factory `unique(column)`: mask is `~df[column].duplicated(keep=False)`;
`duplicated(keep=False)` marks every row whose value occurs at least
twice in the column. -/
def unique (column : String) : DataQualityRule :=
  { name := "unique(" ++ column ++ ")",
    func := fun t =>
      match t.col column with
      | .error e => .error e
      | .ok vals => .ok (vals.map (fun v => MVal.b (!(decide (2 ≤ vals.count v))))),
    description := "Uniqueness constraint" }

/-- Whether a column contains a string value: element-wise comparison of a
string with a number raises a Python `TypeError`. -/
def hasStr (vals : List Value) : Bool :=
  vals.any (fun v => match v with | .str _ => true | _ => false)

/-- The numeric reading of a cell for comparisons: ints are themselves,
Python bools compare as 0/1, strings and nulls have none (a null compares
as NaN, so every comparison on it is False). -/
def Value.asNum : Value → Option Int
  | .int n => some n
  | .bool b => some (if b then 1 else 0)
  | .str _ => none
  | .null => none

/-- Embeds the factory `in_range(column, min_value, max_value, inclusive)`: mask is
`df[column].between(min, max)` when inclusive, else
`(df[column] > min) & (df[column] < max)`.  A string anywhere in the
column makes the comparison raise `TypeError`; a NaN compares False. -/
def in_range (column : String) (min_value max_value : Int)
    (inclusive : Bool := true) : DataQualityRule :=
  { name := "in_range(" ++ column ++ "," ++ toString min_value ++ ","
              ++ toString max_value ++ ")",
    func := fun t =>
      match t.col column with
      | .error e => .error e
      | .ok vals =>
        if hasStr vals then
          .error (.typeError "not supported between instances of str and int")
        else
          .ok (vals.map (fun v => MVal.b (match v.asNum with
            | some m =>
              if inclusive then decide (min_value ≤ m ∧ m ≤ max_value)
              else decide (min_value < m ∧ m < max_value)
            | none => false))),
    description := "Numeric range validation" }

/-- Regular expressions over characters, enough for the patterns used by
the framework: empty set, empty string, a character class, concatenation,
alternation, Kleene star. -/
inductive Regex where
  | emptyset
  | eps
  | cls (p : Char → Bool)
  | seq (a b : Regex)
  | alt (a b : Regex)
  | star (r : Regex)

/-- Whether a regex accepts the empty string. -/
def Regex.nullable : Regex → Bool
  | .emptyset => false
  | .eps => true
  | .cls _ => false
  | .seq a b => a.nullable && b.nullable
  | .alt a b => a.nullable || b.nullable
  | .star _ => true

/-- Brzozowski derivative of a regex by a character. -/
def Regex.deriv : Regex → Char → Regex
  | .emptyset, _ => .emptyset
  | .eps, _ => .emptyset
  | .cls p, c => if p c then .eps else .emptyset
  | .seq a b, c =>
      if a.nullable then .alt (.seq (a.deriv c) b) (b.deriv c)
      else .seq (a.deriv c) b
  | .alt a b, c => .alt (a.deriv c) (b.deriv c)
  | .star r, c => .seq (r.deriv c) (.star r)

/-- Whole-string regex matching by iterated derivatives. -/
def Regex.rmatch (r : Regex) : List Char → Bool
  | [] => r.nullable
  | c :: cs => (r.deriv c).rmatch cs

/-- A compiled Python pattern as passed to `re.match`: its body, and
whether it ends with the `$` anchor. -/
structure PyPattern where
  core : Regex
  endAnchored : Bool

/-- Embeds `re.match(pattern, s)` truthiness: matching is anchored at the start of
`s` only; without a trailing `$` any prefix of `s` may be matched, with a
trailing `$` the whole of `s` must be matched. -/
def pyMatch (p : PyPattern) (s : List Char) : Bool :=
  if p.endAnchored then p.core.rmatch s
  else (List.range (s.length + 1)).any (fun k => p.core.rmatch (s.take k))

/-- Embeds `astype(str)` on a cell of an object-dtype column: Python's `str()` of
the value; in particular `None` becomes the four-character text "None". -/
def Value.pyStr : Value → String
  | .int n => toString n
  | .str s => s
  | .bool b => if b then "True" else "False"
  | .null => "None"

/-- Embeds the factory `matches_regex(column, pattern)`: mask is
`df[column].astype(str).str.match(pattern, na=False)`.  `astype(str)`
coerces every cell (nulls included) to text first, so `na=False` never
applies; the `pattern` argument is the compiled form of the pattern
string (the rule name embeds only the column, as in the source). -/
def matches_regex (column : String) (pattern : PyPattern) : DataQualityRule :=
  { name := "matches_regex(" ++ column ++ ")",
    func := fun t =>
      match t.col column with
      | .error e => .error e
      | .ok vals => .ok (vals.map (fun v => MVal.b (pyMatch pattern v.pyStr.data))),
    description := "Regex pattern match" }

/-- The class `\w` of the source's email pattern (ASCII reading). -/
def wordChar (c : Char) : Bool := c.isAlphanum || c == '_'

/-- The character class `[\w.-]` of the email pattern. -/
def emailCls : Regex := .cls (fun c => wordChar c || c == '.' || c == '-')

/-- The combinator for `r+`, that is `r r*`. -/
def plusR (r : Regex) : Regex := .seq r (.star r)

/-- The compiled form of the sample email pattern
`^[\w.-]+@[\w.-]+\.[a-zA-Z]{2,}$`. -/
def emailPattern : PyPattern :=
  { core := .seq (plusR emailCls)
      (.seq (.cls (fun c => c == '@'))
        (.seq (plusR emailCls)
          (.seq (.cls (fun c => c == '.'))
            (.seq (.cls Char.isAlpha) (plusR (.cls Char.isAlpha)))))),
    endAnchored := true }

/-! Concrete tables and rules used by the example-level theorems; the
tables are the ones named by the spec's testable properties (the sample
data of the source's `__main__` block, one column at a time). -/

/-- The id column `[1, 2, 2, 4]` of the sample data. -/
def idTable : Table :=
  { header := ["id"], rows := [[.int 1], [.int 2], [.int 2], [.int 4]] }

/-- The age column `[25, 17, 130, 40]` of the sample data. -/
def ageTable : Table :=
  { header := ["age"], rows := [[.int 25], [.int 17], [.int 130], [.int 40]] }

/-- The email column `["a@example.com", "bad_email", "b@example.com", None]`
of the sample data. -/
def emailTable : Table :=
  { header := ["email"],
    rows := [[.str "a@example.com"], [.str "bad_email"],
             [.str "b@example.com"], [.null]] }

/-- An age column holding a string, to exercise the comparison TypeError. -/
def mixedAgeTable : Table :=
  { header := ["age"], rows := [[.str "seventeen"], [.int 20]] }

/-- A one-column table whose single row is null. -/
def nullTable : Table := { header := ["e"], rows := [[.null]] }

/-- A one-column table whose single row is the string "ab". -/
def abTable : Table := { header := ["e"], rows := [[.str "ab"]] }

/-- A one-column table whose single row is the int 18 (a range boundary). -/
def boundaryTable : Table := { header := ["age"], rows := [[.int 18]] }

/-- A zero-row table. -/
def emptyTable : Table := { header := ["x"], rows := [] }

/-- A rule whose predicate returns a well-formed boolean mask on the
four-row sample tables. -/
def okRule : DataQualityRule :=
  { name := "ok rule",
    func := fun _ => .ok [.b true, .b false, .b true, .b true] }

/-- A rule whose predicate returns a Series containing a non-boolean
element. -/
def badMaskRuleA : DataQualityRule :=
  { name := "rule A",
    func := fun _ => .ok [.nonbool, .b true, .b true, .b true] }

/-- Same malformed predicate as `badMaskRuleA`, under a different name. -/
def badMaskRuleB : DataQualityRule :=
  { name := "rule B",
    func := fun _ => .ok [.nonbool, .b true, .b true, .b true] }

/-- A rule whose predicate returns a boolean mask of length 2 (too short
for the four-row sample tables). -/
def wrongLenRule : DataQualityRule :=
  { name := "wrong length rule",
    func := fun _ => .ok [.b true, .b false] }

/-- A rule whose predicate returns an all-false boolean mask of length 6
(too long for the four-row sample tables). -/
def longMaskRule : DataQualityRule :=
  { name := "long mask rule",
    func := fun _ => .ok [.b false, .b false, .b false, .b false, .b false, .b false] }

/-- A rule with the same predicate as `unique "missing"` but a different
name, to probe whether errors identify the rule. -/
def otherNameMissingRule : DataQualityRule :=
  { name := "a very different name",
    func := (unique "missing").func }

/-- A rule whose predicate returns the empty mask on every table. -/
def emptyMaskRule : DataQualityRule :=
  { name := "empty mask rule", func := fun _ => .ok [] }

/-- The result of `unique "id"` on `idTable`. -/
def uniqueIdResult : RuleResult :=
  { name := "unique(id)", passed := false, failures := 2, total := 4,
    details := some { header := ["id"], rows := [[.int 2], [.int 2]] } }

/-- The pattern "N" (unanchored at the end). -/
def patN : PyPattern := { core := .cls (fun c => c == 'N'), endAnchored := false }

/-- The pattern "a" (unanchored at the end). -/
def patA : PyPattern := { core := .cls (fun c => c == 'a'), endAnchored := false }

/-! Helper lemmas shared by the claim theorems. -/

lemma count_true_map_not (l : List Bool) :
    (l.map (fun b => !b)).count true = l.count false := by
  induction l with
  | nil => rfl
  | cons b bs ih => cases b <;> simp [List.count_cons, ih]

lemma zip_map_not_filter (rows : List Row) (mask : List Bool) :
    ((rows.zip (mask.map (fun b => !b))).filter (fun p => p.2)).map Prod.fst
      = ((rows.zip mask).filter (fun p => !p.2)).map Prod.fst := by
  induction rows generalizing mask with
  | nil => simp
  | cons r rs ih =>
    cases mask with
    | nil => simp
    | cons b bs => cases b <;> simp [List.filter_cons, ih bs]

lemma all_isBool_map_b (mask : List Bool) :
    (mask.map MVal.b).all MVal.isBool = true := by
  induction mask with
  | nil => rfl
  | cons b bs ih => simp [MVal.isBool, ih]

lemma toBool_map_b (mask : List Bool) :
    (mask.map MVal.b).map MVal.toBool = mask := by
  induction mask with
  | nil => rfl
  | cons b bs ih => simp [MVal.toBool, ih]

/-- What `evaluate` returns when the predicate yields a boolean Series at
least as long as the table: `df.loc` aligns away any extra entries when
selecting the failing rows, but `failures` counts the falses of the
whole mask. -/
lemma evaluate_ok_of_mask (r : DataQualityRule) (t : Table) (mask : List Bool)
    (hf : r.func t = .ok (mask.map MVal.b))
    (hlen : t.rows.length ≤ mask.length) :
    r.evaluate t = .ok {
      name := r.name,
      passed := mask.count false == 0,
      failures := mask.count false,
      total := t.rows.length,
      details := some {
        header := t.header,
        rows := ((t.rows.zip mask).filter (fun p => !p.2)).map Prod.fst } } := by
  unfold DataQualityRule.evaluate
  rw [hf]
  simp only [all_isBool_map_b, if_pos, toBool_map_b]
  unfold locBool
  rw [if_pos (by simp [hlen])]
  simp only [count_true_map_not, zip_map_not_filter]

lemma validate_ok_map (rules : List DataQualityRule) (t : Table)
    (rs : List RuleResult) (h : validate rules t = .ok rs) :
    rules.map (fun r => r.evaluate t) = rs.map Except.ok := by
  induction rules generalizing rs with
  | nil =>
    unfold validate at h
    cases h
    rfl
  | cons r rest ih =>
    unfold validate at h
    split at h
    · exact absurd h (by simp)
    next res hr =>
      split at h
      · exact absurd h (by simp)
      next restRes hv =>
        cases h
        simp [hr, ih restRes hv]

lemma dictKeysUnion_step_const (acc : List String)
    (ds : List (List (String × Value)))
    (h : ∀ d ∈ ds, ∀ k ∈ d.map Prod.fst, acc.contains k = true) :
    ds.foldl (fun a d => a ++ ((d.map Prod.fst).filter (fun k => !(a.contains k)))) acc
      = acc := by
  induction ds with
  | nil => rfl
  | cons d ds' ih =>
    have hfilter : (d.map Prod.fst).filter (fun k => !(acc.contains k)) = [] := by
      rw [List.filter_eq_nil_iff]
      intro k hk
      have hmem : k ∈ acc := by simpa using h d (by simp) k hk
      simp [hmem]
    simp only [List.foldl_cons, hfilter, List.append_nil]
    exact ih (fun d' hd' => h d' (by simp [hd']))

/-! The claim theorems. -/

/-- C1: for every table and every rule whose predicate returns a boolean
mask of the table's row count, `evaluate` returns a `RuleResult` whose
`failures` is the number of false positions of the mask, whose `total` is
the row count, whose `passed` is `failures == 0`, and whose failing-row
subset holds exactly the rows at false mask positions, in original row
order (a sublist of the table's rows), with the input table's column
schema. -/
theorem c1_evaluate_success (r : DataQualityRule) (t : Table) (mask : List Bool)
    (hf : r.func t = .ok (mask.map MVal.b))
    (hlen : mask.length = t.rows.length) :
    r.evaluate t = .ok {
        name := r.name,
        passed := mask.count false == 0,
        failures := mask.count false,
        total := t.rows.length,
        details := some {
          header := t.header,
          rows := ((t.rows.zip mask).filter (fun p => !p.2)).map Prod.fst } }
      ∧ mask.count false + (t.rows.length - mask.count false) = t.rows.length
      ∧ (((t.rows.zip mask).filter (fun p => !p.2)).map Prod.fst).Sublist t.rows := by
  refine ⟨evaluate_ok_of_mask r t mask hf (le_of_eq hlen.symm), ?_, ?_⟩
  · have hc : mask.count false ≤ mask.length := List.count_le_length _ _
    omega
  · have h1 : ((t.rows.zip mask).filter (fun p => !p.2)).Sublist (t.rows.zip mask) :=
      List.filter_sublist _
    have h2 := h1.map Prod.fst
    rwa [List.map_fst_zip t.rows mask (le_of_eq hlen.symm)] at h2

/-- C1 witness: the theorem instantiated on `okRule` (mask
`[true, false, true, true]`) over the four-row id table. -/
theorem c1_evaluate_success_witness :
    okRule.evaluate idTable = .ok {
        name := "ok rule", passed := false, failures := 1, total := 4,
        details := some { header := ["id"], rows := [[Value.int 2]] } }
      ∧ 1 + (4 - 1) = 4
      ∧ List.Sublist [[Value.int 2]] idTable.rows :=
  c1_evaluate_success okRule idTable [true, false, true, true] rfl rfl

/-- C2 counterexample: a predicate returning a Series with a non-boolean
element makes `evaluate` raise the generic
`ValueError("Rule function must return a boolean pandas Series")`; two
rules that differ only in their name produce the identical error, so the
error does not carry the rule's name and there is no dedicated
`InvalidMaskError`. A boolean mask of mismatched length is not rejected
by any mask validation: a too-short mask (length 2 against four rows)
slips through the dtype check and dies only inside `df.loc` with a
pandas `IndexingError`, again without the rule's name; a too-long mask
(length 6 against four rows) raises nothing at all — `df.loc` aligns the
extra labels away and `evaluate` returns a garbage `RuleResult` whose
`failures` (6) even exceeds its `total` (4). -/
theorem c2_counterexample :
    badMaskRuleA.evaluate idTable
        = .error (.valueError "Rule function must return a boolean pandas Series")
      ∧ badMaskRuleB.evaluate idTable
          = .error (.valueError "Rule function must return a boolean pandas Series")
      ∧ badMaskRuleA.name ≠ badMaskRuleB.name
      ∧ wrongLenRule.evaluate idTable = .error .indexingError
      ∧ longMaskRule.evaluate idTable = .ok {
          name := "long mask rule", passed := false, failures := 6, total := 4,
          details := some {
            header := ["id"],
            rows := [[Value.int 1], [Value.int 2], [Value.int 2], [Value.int 4]] } } :=
  ⟨rfl, rfl, by decide, rfl, rfl⟩

/-- C2 as amended: if a rule's predicate returns a Series containing a
non-boolean element, `evaluate` raises a `ValueError` with a fixed
message that does not name the rule.  Mask length is never validated,
and the two mismatch directions behave differently: a boolean mask
shorter than the table makes `evaluate` fail with the pandas
`IndexingError` raised when selecting the failing rows (also without the
rule's name), while a boolean mask longer than the table raises nothing —
`df.loc` aligns the extra entries away and `evaluate` returns a garbage
`RuleResult` whose `failures` counts the falses of the whole mask
(possibly exceeding `total`) and whose failing-row subset is selected by
the mask's first entries.  Only the non-boolean and too-short defects
surface as raised errors, distinguishable from a normal data-quality
failure, which is returned as a `RuleResult` and never raised. -/
theorem c2_invalid_mask_behavior (r : DataQualityRule) (t : Table)
    (raw : List MVal) (hf : r.func t = .ok raw) :
    (raw.all MVal.isBool = false →
      r.evaluate t = .error (.valueError "Rule function must return a boolean pandas Series"))
    ∧ (∀ mask : List Bool, raw = mask.map MVal.b → mask.length < t.rows.length →
        r.evaluate t = .error .indexingError)
    ∧ (∀ mask : List Bool, raw = mask.map MVal.b → t.rows.length ≤ mask.length →
        r.evaluate t = .ok {
          name := r.name,
          passed := mask.count false == 0,
          failures := mask.count false,
          total := t.rows.length,
          details := some {
            header := t.header,
            rows := ((t.rows.zip mask).filter (fun p => !p.2)).map Prod.fst } }) := by
  refine ⟨?_, ?_, ?_⟩
  · intro hbad
    unfold DataQualityRule.evaluate
    rw [hf]
    simp [hbad]
  · intro mask hm hlen
    subst hm
    unfold DataQualityRule.evaluate
    rw [hf]
    simp only [all_isBool_map_b, if_pos, toBool_map_b]
    unfold locBool
    rw [if_neg (by simp; omega)]
  · intro mask hm hlen
    subst hm
    exact evaluate_ok_of_mask r t mask hf hlen

/-- C2 witness: the amended theorem instantiated on `badMaskRuleA` (a
non-boolean mask element), on `wrongLenRule` (a length-2 boolean mask
against the four-row id table) and on `longMaskRule` (an all-false
length-6 boolean mask against the same table). -/
theorem c2_invalid_mask_behavior_witness :
    badMaskRuleA.evaluate idTable
        = .error (.valueError "Rule function must return a boolean pandas Series")
      ∧ wrongLenRule.evaluate idTable = .error .indexingError
      ∧ longMaskRule.evaluate idTable = .ok {
          name := "long mask rule", passed := false, failures := 6, total := 4,
          details := some {
            header := ["id"],
            rows := [[Value.int 1], [Value.int 2], [Value.int 2], [Value.int 4]] } } :=
  ⟨(c2_invalid_mask_behavior badMaskRuleA idTable
      [.nonbool, .b true, .b true, .b true] rfl).1 rfl,
   (c2_invalid_mask_behavior wrongLenRule idTable
      [.b true, .b false] rfl).2.1 [true, false] rfl (by decide),
   (c2_invalid_mask_behavior longMaskRule idTable
      ([false, false, false, false, false, false].map MVal.b) rfl).2.2
      [false, false, false, false, false, false] rfl (by decide)⟩

/-- C3: `validate` on the empty rule list returns the empty result list
for any table, and whenever `validate` returns a result list, it has one
entry per registered rule: the list of each rule's own evaluation, in
registration order, with no merging or deduplication (rules that share a
name are evaluated independently, as the witness with two copies of the
same rule shows). -/
theorem c3_validate_order (rules : List DataQualityRule) (t : Table)
    (rs : List RuleResult) (h : validate rules t = .ok rs) :
    validate [] t = .ok []
    ∧ rs.length = rules.length
    ∧ rules.map (fun r => r.evaluate t) = rs.map Except.ok := by
  have hm := validate_ok_map rules t rs h
  refine ⟨rfl, ?_, hm⟩
  have := congrArg List.length hm
  simpa using this.symm

/-- C3 witness: the theorem instantiated on two copies of `unique "id"`
(duplicate rule names) over the id table. -/
theorem c3_validate_order_witness :
    validate [] idTable = .ok []
    ∧ ([uniqueIdResult, uniqueIdResult] : List RuleResult).length
        = [unique "id", unique "id"].length
    ∧ [unique "id", unique "id"].map (fun r => r.evaluate idTable)
        = [uniqueIdResult, uniqueIdResult].map Except.ok :=
  c3_validate_order [unique "id", unique "id"] idTable
    [uniqueIdResult, uniqueIdResult] rfl

/-- C4 counterexample: a rule whose predicate references a column absent
from the table makes `validate` propagate the raw pandas `KeyError`
naming only the column; a rule with a completely different name but the
same predicate produces the identical error, so the propagated error is
not a `RuleEvaluationError` identifying the rule — no wrapping happens. -/
theorem c4_counterexample :
    validate [unique "missing"] idTable = .error (.keyError "missing")
      ∧ validate [otherNameMissingRule] idTable = .error (.keyError "missing")
      ∧ (unique "missing").name ≠ otherNameMissingRule.name :=
  ⟨rfl, rfl, by decide⟩

/-- C4 as amended: if a rule's predicate raises during `validate` (for
example a `KeyError` for a column absent from the table), the raw
exception propagates unwrapped — without the rule's name — and `validate`
produces no result list at all, so no partial or garbage `RuleResult` is
returned for that rule. -/
theorem c4_error_propagation (pre post : List DataQualityRule)
    (r : DataQualityRule) (t : Table) (e : QError)
    (hpre : ∀ q ∈ pre, ∃ res, q.evaluate t = .ok res)
    (herr : r.evaluate t = .error e) :
    validate (pre ++ r :: post) t = .error e := by
  induction pre with
  | nil =>
    rw [List.nil_append]
    simp [validate, herr]
  | cons q pre' ih =>
    obtain ⟨res, hq⟩ := hpre q (by simp)
    have ih' := ih (fun q' hq' => hpre q' (by simp [hq']))
    rw [List.cons_append]
    simp [validate, hq, ih']

/-- C4 witness: the amended theorem instantiated with a healthy first rule
(`unique "id"`) followed by a rule referencing the absent column
"missing", over the id table. -/
theorem c4_error_propagation_witness :
    validate [unique "id", unique "missing"] idTable
      = .error (.keyError "missing") :=
  c4_error_propagation [unique "id"] [] (unique "missing") idTable
    (.keyError "missing")
    (by
      intro q hq
      rw [List.mem_singleton] at hq
      subst hq
      exact ⟨uniqueIdResult, rfl⟩)
    rfl

/-- C5: the rule built by `unique(column)` passes a row exactly when the
row's value in the column occurs exactly once across the whole table
(`~duplicated(keep=False)` is the occurs-exactly-once predicate, so every
row sharing a duplicated value fails, not just later occurrences); over
ids `[1, 2, 2, 4]` both rows holding id 2 fail, giving failures = 2,
total = 4, passed = false. -/
theorem c5_unique_global (t : Table) (c : String) (vals : List Value)
    (hc : t.col c = .ok vals) :
    (unique c).func t = .ok (vals.map (fun v => MVal.b (decide (vals.count v = 1))))
    ∧ (unique "id").evaluate idTable = .ok uniqueIdResult := by
  constructor
  · simp only [unique]
    rw [hc]
    exact congrArg Except.ok (List.map_congr_left (fun v hv => by
      have h1 : 0 < vals.count v := List.count_pos_iff.mpr hv
      by_cases h2 : 2 ≤ vals.count v
      · simp [h2]
        omega
      · simp [h2]
        omega))
  · rfl

/-- C5 witness: the theorem instantiated on the id table whose id column
is `[1, 2, 2, 4]`. -/
theorem c5_unique_global_witness :
    (unique "id").evaluate idTable = .ok uniqueIdResult :=
  (c5_unique_global idTable "id"
    [Value.int 1, Value.int 2, Value.int 2, Value.int 4] rfl).2

/-- C6 counterexample: a non-numeric (string) value in the column does not
produce a well-defined row failure — comparing it with the bounds raises
a Python `TypeError`, so the whole evaluation crashes instead of marking
the row as not passing. -/
theorem c6_counterexample :
    (in_range "age" 18 120 true).evaluate mixedAgeTable
      = .error (.typeError "not supported between instances of str and int") :=
  rfl

/-- C6 as amended: on a column with no string values, the rule built by
`in_range(column, min, max, inclusive)` evaluates without error and
passes a row exactly when the column's numeric value lies within
[min, max] (inclusive) or (min, max) (exclusive); a null value fails its
row without crashing (its comparisons are all false, it has no numeric
reading).  A string value anywhere in the column instead raises a
`TypeError` that aborts the rule's evaluation.  Ages `[25, 17, 130, 40]`
against the inclusive range [18, 120] fail exactly 17 and 130
(failures = 2, total = 4). -/
theorem c6_in_range_behavior (t : Table) (c : String) (vals : List Value)
    (lo hi : Int) (inc : Bool)
    (hc : t.col c = .ok vals) (hstr : hasStr vals = false) :
    (∃ raw, (in_range c lo hi inc).func t = .ok raw
      ∧ List.Forall₂ (fun v mv => mv.isBool = true
          ∧ (mv = MVal.b true ↔ ∃ m, v.asNum = some m
              ∧ (if inc then lo ≤ m ∧ m ≤ hi else lo < m ∧ m < hi))) vals raw)
    ∧ (in_range "age" 18 120 true).evaluate ageTable = .ok {
        name := "in_range(age,18,120)", passed := false, failures := 2, total := 4,
        details := some { header := ["age"], rows := [[Value.int 17], [Value.int 130]] } } := by
  constructor
  · refine ⟨vals.map (fun v => MVal.b (match v.asNum with
      | some m =>
        if inc then decide (lo ≤ m ∧ m ≤ hi) else decide (lo < m ∧ m < hi)
      | none => false)), ?_, ?_⟩
    · simp only [in_range]
      rw [hc]
      simp [hstr]
    · rw [List.forall₂_map_right_iff]
      rw [List.forall₂_same]
      intro v hv
      refine ⟨rfl, ?_⟩
      cases hnum : v.asNum with
      | none => simp [hnum]
      | some m =>
        cases inc with
        | true => simp [hnum, MVal.b.injEq, decide_eq_true_iff]
        | false => simp [hnum, MVal.b.injEq, decide_eq_true_iff]
  · rfl

/-- C6 witness: the amended theorem instantiated on the age table
`[25, 17, 130, 40]` with the inclusive range [18, 120]. -/
theorem c6_in_range_behavior_witness :
    (in_range "age" 18 120 true).evaluate ageTable = .ok {
      name := "in_range(age,18,120)", passed := false, failures := 2, total := 4,
      details := some { header := ["age"], rows := [[Value.int 17], [Value.int 130]] } } :=
  (c6_in_range_behavior ageTable "age"
    [Value.int 25, Value.int 17, Value.int 130, Value.int 40] 18 120 true rfl rfl).2

/-- C7 counterexample: null values do not always fail.  `astype(str)`
coerces a null to the text "None", which is then matched like any other
string: against the pattern "N" the null row passes (failures = 0,
passed = true).  Also, matching is not a full match: against the pattern
"a" the value "ab" passes even though "a" does not fully match "ab". -/
theorem c7_counterexample :
    (matches_regex "e" patN).evaluate nullTable = .ok {
        name := "matches_regex(e)", passed := true, failures := 0, total := 1,
        details := some { header := ["e"], rows := [] } }
      ∧ (matches_regex "e" patA).evaluate abTable = .ok {
          name := "matches_regex(e)", passed := true, failures := 0, total := 1,
          details := some { header := ["e"], rows := [] } }
      ∧ patA.core.rmatch "ab".data = false :=
  ⟨rfl, rfl, rfl⟩

/-- C7 as amended: the rule built by `matches_regex(column, pattern)`
passes a row exactly when the row's value, coerced to text by `str()`,
is matched by the pattern anchored at the start — a prefix match when the
pattern has no trailing `$` anchor, the full string when it has one.
Null values are coerced to the text "None" and matched like any string
(they fail patterns they do not match, such as the email pattern, but
need not fail in general) and never raise.  The email pattern over
`["a@example.com", "bad_email", "b@example.com", null]` fails exactly
the 2nd and 4th rows. -/
theorem c7_matches_regex_behavior (t : Table) (c : String) (vals : List Value)
    (p : PyPattern) (s : List Char) (hc : t.col c = .ok vals) :
    (matches_regex c p).func t
        = .ok (vals.map (fun v => MVal.b (pyMatch p v.pyStr.data)))
      ∧ (p.endAnchored = false →
          (pyMatch p s = true ↔ ∃ k, k ≤ s.length ∧ p.core.rmatch (s.take k) = true))
      ∧ (p.endAnchored = true → pyMatch p s = p.core.rmatch s)
      ∧ Value.null.pyStr = "None"
      ∧ (matches_regex "email" emailPattern).evaluate emailTable = .ok {
          name := "matches_regex(email)", passed := false, failures := 2, total := 4,
          details := some {
            header := ["email"],
            rows := [[Value.str "bad_email"], [Value.null]] } } := by
  refine ⟨?_, ?_, ?_, rfl, rfl⟩
  · simp only [matches_regex]
    rw [hc]
  · intro hend
    unfold pyMatch
    rw [if_neg (by simp [hend])]
    simp [List.any_eq_true, List.mem_range, Nat.lt_succ_iff]
  · intro hend
    unfold pyMatch
    rw [if_pos (by simp [hend])]

/-- C7 witness: the amended theorem instantiated on the email table with
the sample email pattern. -/
theorem c7_matches_regex_behavior_witness :
    (matches_regex "email" emailPattern).evaluate emailTable = .ok {
      name := "matches_regex(email)", passed := false, failures := 2, total := 4,
      details := some {
        header := ["email"],
        rows := [[Value.str "bad_email"], [Value.null]] } } :=
  (c7_matches_regex_behavior emailTable "email"
    [Value.str "a@example.com", Value.str "bad_email",
     Value.str "b@example.com", Value.null] emailPattern [] rfl).2.2.2.2

/-- C8: evaluating a rule against a zero-row table (the rule's predicate
returning the empty mask that such a table induces) succeeds and reports
total = 0, failures = 0, passed = true, with an empty failing-row subset
over the same schema. -/
theorem c8_zero_row_table (r : DataQualityRule) (t : Table)
    (ht : t.rows = []) (hf : r.func t = .ok []) :
    r.evaluate t = .ok {
      name := r.name, passed := true, failures := 0, total := 0,
      details := some { header := t.header, rows := [] } } := by
  have h := evaluate_ok_of_mask r t [] (by simpa using hf) (by simp [ht])
  rw [ht] at h
  simpa using h

/-- C8 witness: the theorem instantiated on a rule returning the empty
mask over a zero-row table. -/
theorem c8_zero_row_table_witness :
    emptyMaskRule.evaluate emptyTable = .ok {
      name := "empty mask rule", passed := true, failures := 0, total := 0,
      details := some { header := ["x"], rows := [] } } :=
  c8_zero_row_table emptyMaskRule emptyTable rfl rfl

/-- C9 counterexample: `summary` of the empty result list is
`pd.DataFrame([])`, a frame with zero rows and zero columns — it does not
carry the `{name, passed, failures, total}` column schema. -/
theorem c9_counterexample :
    (summary []).header = []
      ∧ (summary []).rows = []
      ∧ (summary []).header ≠ ["name", "passed", "failures", "total"] :=
  ⟨rfl, rfl, by decide⟩

/-- C9 as amended: for a non-empty result list, `summary` produces an
aggregate table whose columns are exactly name, passed, failures, total
and whose rows are, in input order, one row per `RuleResult` holding
those four fields (no row-level detail); for the empty list it produces
a frame with zero rows and zero columns, so the column schema is not
preserved in that case. -/
theorem c9_summary_behavior (results : List RuleResult) (hne : results ≠ []) :
    (summary results).header = ["name", "passed", "failures", "total"]
      ∧ (summary results).rows = results.map (fun r =>
          [Value.str r.name, Value.bool r.passed,
           Value.int (r.failures : Int), Value.int (r.total : Int)])
      ∧ (summary results).rows.length = results.length
      ∧ (summary []).header = [] ∧ (summary []).rows = [] := by
  obtain ⟨r0, rest, rfl⟩ := List.exists_cons_of_ne_nil hne
  have hcols : dictKeysUnion ((r0 :: rest).map RuleResult.to_dict)
      = ["name", "passed", "failures", "total"] := by
    unfold dictKeysUnion
    simp only [List.map_cons, List.foldl_cons]
    have hstep : (([] : List String)
        ++ (((RuleResult.to_dict r0).map Prod.fst).filter
              (fun k => !(([] : List String).contains k))))
        = ["name", "passed", "failures", "total"] := rfl
    rw [hstep]
    apply dictKeysUnion_step_const
    intro d hd k hk
    obtain ⟨r, _, rfl⟩ := List.mem_map.mp hd
    simp [RuleResult.to_dict] at hk
    rcases hk with h | h | h | h <;> subst h <;> rfl
  have hrows : (summary (r0 :: rest)).rows = (r0 :: rest).map (fun r =>
      [Value.str r.name, Value.bool r.passed,
       Value.int (r.failures : Int), Value.int (r.total : Int)]) := by
    show ((r0 :: rest).map RuleResult.to_dict).map (fun d =>
        (dictKeysUnion ((r0 :: rest).map RuleResult.to_dict)).map
          (fun k => (d.lookup k).getD .null)) = _
    rw [hcols, List.map_map]
    exact List.map_congr_left (fun r _ => rfl)
  refine ⟨hcols, hrows, ?_, rfl, rfl⟩
  rw [hrows, List.length_map]

/-- C9 witness: the amended theorem instantiated on a one-element result
list. -/
theorem c9_summary_behavior_witness :
    (summary [uniqueIdResult]).header = ["name", "passed", "failures", "total"]
      ∧ (summary [uniqueIdResult]).rows = [uniqueIdResult].map (fun r =>
          [Value.str r.name, Value.bool r.passed,
           Value.int (r.failures : Int), Value.int (r.total : Int)])
      ∧ (summary [uniqueIdResult]).rows.length = [uniqueIdResult].length
      ∧ (summary []).header = [] ∧ (summary []).rows = [] :=
  c9_summary_behavior [uniqueIdResult] (List.cons_ne_nil _ _)

/-- C10: the rules built by `in_range(column, min, max, inclusive=true)`
and `in_range(column, min, max, inclusive=false)` carry the identical
name "in_range(column,min,max)" — the inclusive flag is not encoded in
the name — even though the two rules differ semantically, as the boundary
value 18 against the range [18, 120] shows (the inclusive rule passes it,
the exclusive rule fails it, under the same rule name). -/
theorem c10_in_range_name_ignores_inclusive (c : String) (lo hi : Int) :
    (in_range c lo hi true).name = (in_range c lo hi false).name
      ∧ (in_range c lo hi true).name
          = "in_range(" ++ c ++ "," ++ toString lo ++ "," ++ toString hi ++ ")"
      ∧ (in_range "age" 18 120 true).evaluate boundaryTable = .ok {
          name := "in_range(age,18,120)", passed := true, failures := 0, total := 1,
          details := some { header := ["age"], rows := [] } }
      ∧ (in_range "age" 18 120 false).evaluate boundaryTable = .ok {
          name := "in_range(age,18,120)", passed := false, failures := 1, total := 1,
          details := some { header := ["age"], rows := [[Value.int 18]] } } :=
  ⟨rfl, rfl, rfl, rfl⟩

end DQ
